import Mathlib

/-
Verification of the group-migration core of the UC migration toolkit
(src/uc_migration_toolkit/managers/group.py).

The gateway (Databricks workspace client) is modelled as an explicit state
holding the workspace-scoped and account-scoped group collections; every
mutating gateway call (create / delete / PATCH / reflect) is recorded in a
trace so that claims about which mutations occur, and in which order, can be
stated.  Python assertion failures are modelled as `Except.error` results.
The ThreadedExecution fan-out is linearized: units of work run in submission
order, and the first failure aborts the batch (the Runner surfaces the first
fatal error; result order preserves submission order).
-/

namespace UcMigration

/-- A directory group as the SDK returns it (attribute projection
`id, displayName, meta, entitlements, roles` plus the externalId field that
`as_dict` may expose).  Entitlements and roles are the opaque `.value`
strings of the SDK ComplexValue objects; `resourceType` is
`meta.resource_type`. -/
structure Group where
  id : String
  displayName : String
  externalId : Option String
  resourceType : String
  entitlements : List String
  roles : List String
deriving DecidableEq

/-- The `GroupLevel` enum of group.py. -/
inductive GroupLevel where
  | WORKSPACE
  | ACCOUNT
deriving DecidableEq

/-- The `MigrationGroupInfo` dataclass: the workspace / backup / account triad. -/
structure MigrationGroupInfo where
  workspace : Group
  backup : Group
  account : Group
deriving DecidableEq

/-- The `MigrationGroupsProvider` registry: an ordered list of records. -/
structure MigrationGroupsProvider where
  groups : List MigrationGroupInfo
deriving DecidableEq

/-- `MigrationGroupsProvider.add`: appends the record, with no uniqueness check. -/
def MigrationGroupsProvider.add (p : MigrationGroupsProvider) (g : MigrationGroupInfo) :
    MigrationGroupsProvider :=
  { p with groups := p.groups ++ [g] }

/-- `MigrationGroupsProvider.get_by_workspace_group_name`: first record whose
workspace display name matches, `none` when absent. -/
def MigrationGroupsProvider.get_by_workspace_group_name (p : MigrationGroupsProvider)
    (workspace_group_name : String) : Option MigrationGroupInfo :=
  (p.groups.filter (fun g => g.workspace.displayName == workspace_group_name)).head?

/-- `GroupManager.SYSTEM_GROUPS`, the system-group denylist. -/
def SYSTEM_GROUPS : List String := ["users", "admins", "account users"]

/-- The groups section of the configuration: the explicit selection (empty list
models the falsy "not provided" case of `if self.config.selected`) and the
backup-group name prefix string `backup_group_prefix`. -/
structure GroupsConfig where
  selected : List String
  backupGroupPfx : String
deriving DecidableEq

/-- The state of the remote directory gateway: the workspace-scoped and
account-scoped group collections, and a counter from which created groups
receive fresh identifiers. -/
structure GatewayState where
  wsGroups : List Group
  accGroups : List Group
  nextId : Nat
deriving DecidableEq

/-- One `{"value": v}` element of a SCIM patch operation's value list. -/
structure ScimValue where
  value : String
deriving DecidableEq

/-- One entry of the `Operations` list of the PATCH body: either a full
`{"op": "add", "path": p, "value": [...]}` object or the empty object `{}`
that the code inserts when the source has no values in that category. -/
inductive ScimOp where
  | addOp (path : String) (value : List ScimValue)
  | emptyOp
deriving DecidableEq

/-- The PATCH request body `{"schemas": [...], "Operations": [...]}`. -/
structure PatchRequest where
  schemas : List String
  operations : List ScimOp
deriving DecidableEq

/-- A mutating call observed at the gateway boundary.  Read-only list/lookup
calls are pure queries of the gateway state and are not traced. -/
inductive GwCall where
  | create (displayName : String) (resourceType : String)
      (entitlements : List String) (roles : List String)
  | delete (id : String)
  | patch (groupId : String) (body : PatchRequest)
  | reflect (accountGroupId : String)
deriving DecidableEq

/-- The attribute dictionary kept by `_get_clean_group_info` with the default
cleanup keys: everything except `id`, `externalId` and `displayName`. -/
structure GroupAttrs where
  resourceType : String
  entitlements : List String
  roles : List String
deriving DecidableEq

/-- `_get_clean_group_info` with default cleanup keys `["id", "externalId",
"displayName"]`. -/
def get_clean_group_info (group : Group) : GroupAttrs :=
  { resourceType := group.resourceType
    entitlements := group.entitlements
    roles := group.roles }

/-- The group collection the gateway serves at each scope: `_get_group`
dispatches between `provider.ws.groups.list` and
`provider.ws.list_account_level_groups`. -/
def groupsAtLevel (st : GatewayState) (level : GroupLevel) : List Group :=
  match level with
  | GroupLevel.WORKSPACE => st.wsGroups
  | GroupLevel.ACCOUNT => st.accGroups

/-- `_get_group`: exact display-name lookup (`displayName eq 'name'` filter) at
the requested scope; the gateway returns the matching groups and the code
takes the first, `none` when there is no match. -/
def getGroup (st : GatewayState) (group_name : String) (level : GroupLevel) : Option Group :=
  ((groupsAtLevel st level).filter (fun g => g.displayName == group_name)).head?

/-- `_find_eligible_groups`: list workspace groups with the server-side filter
`displayName ne "users" and displayName ne "admins" and displayName ne
"account users"`, keep those whose `meta.resource_type` is `WorkspaceGroup`,
and return their display names. -/
def find_eligible_groups (st : GatewayState) : List String :=
  let ws_groups := st.wsGroups.filter (fun g => SYSTEM_GROUPS.all (fun s => g.displayName != s))
  let eligible_groups := ws_groups.filter (fun g => g.resourceType == "WorkspaceGroup")
  eligible_groups.map (fun g => g.displayName)

/-- The SCIM PatchOp schema URN used by `_apply_roles_and_entitlements`. -/
def op_schema : String := "urn:ietf:params:scim:api:messages:2.0:PatchOp"

/-- The PATCH body built by `_apply_roles_and_entitlements`: two copies of the
PatchOp URN and exactly two operations, the entitlements one then the roles
one, each an `add` with the source's wrapped values when the source has values
in that category and the empty object otherwise. -/
def mkPatchRequest (source : Group) : PatchRequest :=
  let entitlements :=
    if source.entitlements = [] then ScimOp.emptyOp
    else ScimOp.addOp "entitlements" (source.entitlements.map ScimValue.mk)
  let roles :=
    if source.roles = [] then ScimOp.emptyOp
    else ScimOp.addOp "roles" (source.roles.map ScimValue.mk)
  { schemas := [op_schema, op_schema]
    operations := [entitlements, roles] }

/-- `_apply_roles_and_entitlements`: a single PATCH request against the
destination group's SCIM endpoint, carrying `mkPatchRequest source`. -/
def apply_roles_and_entitlements (source : Group) (destination : Group) : List GwCall :=
  [GwCall.patch destination.id (mkPatchRequest source)]

/-- Gateway group creation: the payload display name and clean attributes
become a new workspace-scoped group carrying a fresh gateway-assigned id and
no externalId; the created group is returned. -/
def createGroup (st : GatewayState) (displayName : String) (attrs : GroupAttrs) :
    GatewayState × Group :=
  let g : Group :=
    { id := toString st.nextId
      displayName := displayName
      externalId := none
      resourceType := attrs.resourceType
      entitlements := attrs.entitlements
      roles := attrs.roles }
  ({ st with wsGroups := st.wsGroups ++ [g], nextId := st.nextId + 1 }, g)

/-- Gateway group deletion at workspace scope, by identifier. -/
def deleteWsGroup (st : GatewayState) (id : String) : GatewayState :=
  { st with wsGroups := st.wsGroups.filter (fun g => g.id != id) }

/-- `_get_or_create_backup_group`: look the backup up by
`<backup_group_prefix><source name>` at workspace scope; reuse it when found,
otherwise create it from the source's clean attributes with the backup display
name substituted; in both branches apply the source's entitlements and roles
to the backup.  Returns the updated gateway state, the mutating calls issued,
and the backup group. -/
def get_or_create_backup_group (backupGroupPfx : String) (st : GatewayState)
    (source_group_name : String) (source_group : Group) :
    GatewayState × List GwCall × Group :=
  let backup_group_name := backupGroupPfx ++ source_group_name
  match getGroup st backup_group_name GroupLevel.WORKSPACE with
  | some backup_group =>
      (st, apply_roles_and_entitlements source_group backup_group, backup_group)
  | none =>
      let attrs := get_clean_group_info source_group
      let (st1, backup_group) := createGroup st backup_group_name attrs
      (st1,
        GwCall.create backup_group_name attrs.resourceType attrs.entitlements attrs.roles ::
          apply_roles_and_entitlements source_group backup_group,
        backup_group)

/-- The `get_group_info` unit of work inside `_set_migration_groups`: fetch the
workspace-scoped group (assertion failure when absent), fetch the
account-scoped group (assertion failure when absent), then obtain or create
the backup group; on success return the updated state, the calls issued and
the assembled record. -/
def getGroupInfoStep (backupGroupPfx : String) (st : GatewayState) (name : String) :
    Except String (GatewayState × List GwCall × MigrationGroupInfo) :=
  match getGroup st name GroupLevel.WORKSPACE with
  | none => Except.error ("Group " ++ name ++ " not found on the workspace level")
  | some ws_group =>
      match getGroup st name GroupLevel.ACCOUNT with
      | none => Except.error ("Group " ++ name ++ " not found on the account level")
      | some acc_group =>
          let (st1, calls, backup_group) :=
            get_or_create_backup_group backupGroupPfx st name ws_group
          Except.ok (st1, calls,
            { workspace := ws_group, backup := backup_group, account := acc_group })

/-- The linearized fan-out of `_set_migration_groups`: process the names in
submission order, accumulating gateway state and calls; the first assertion
failure aborts the batch and is surfaced. -/
def setMigrationGroupsAux (backupGroupPfx : String) :
    GatewayState → List String →
    GatewayState × List GwCall × Except String (List MigrationGroupInfo)
  | st, [] => (st, [], Except.ok [])
  | st, name :: rest =>
      match getGroupInfoStep backupGroupPfx st name with
      | Except.error e => (st, [], Except.error e)
      | Except.ok (st1, c1, info) =>
          match setMigrationGroupsAux backupGroupPfx st1 rest with
          | (st2, c2, Except.ok infos) => (st2, c1 ++ c2, Except.ok (info :: infos))
          | (st2, c2, Except.error e) => (st2, c1 ++ c2, Except.error e)

/-- The manager: its configuration and the registry it owns
(`_migration_groups_provider`). -/
structure GroupManager where
  config : GroupsConfig
  migration_groups_state : MigrationGroupsProvider
deriving DecidableEq

/-- The outcome of a manager operation: the manager (registry included), the
gateway state, the trace of mutating gateway calls, and the normal/raising
result. -/
structure RunOutcome where
  mgr : GroupManager
  gw : GatewayState
  calls : List GwCall
  result : Except String Unit

/-- `_set_migration_groups`: run the fan-out and, only when every unit of work
succeeded, bulk-assign the collected records to the registry; a failure leaves
the registry untouched and propagates. -/
def set_migration_groups (mgr : GroupManager) (st : GatewayState)
    (groups_names : List String) : RunOutcome :=
  match setMigrationGroupsAux mgr.config.backupGroupPfx st groups_names with
  | (st1, calls, Except.ok infos) =>
      { mgr := { mgr with migration_groups_state := { groups := infos } }
        gw := st1, calls := calls, result := Except.ok () }
  | (st1, calls, Except.error e) =>
      { mgr := mgr, gw := st1, calls := calls, result := Except.error e }

/-- `prepare_groups_in_environment`: with an explicit selection, assert that
no selected name is a system group (the first offender aborts the run before
anything else happens), then run `_set_migration_groups` on the selection;
without a selection, run it on the auto-discovered eligible groups. -/
def prepare_groups_in_environment (mgr : GroupManager) (st : GatewayState) : RunOutcome :=
  if mgr.config.selected ≠ [] then
    match mgr.config.selected.find? (fun g => SYSTEM_GROUPS.contains g) with
    | some g =>
        { mgr := mgr, gw := st, calls := []
          result := Except.error ("Cannot migrate system group " ++ g) }
    | none => set_migration_groups mgr st mgr.config.selected
  else
    set_migration_groups mgr st (find_eligible_groups st)

/-- `migration_groups_provider` property: asserts the registry is non-empty
and returns it unchanged. -/
def migration_groups_provider (mgr : GroupManager) : Except String MigrationGroupsProvider :=
  if mgr.migration_groups_state.groups.length > 0 then Except.ok mgr.migration_groups_state
  else Except.error "Migration groups were not loaded or initialized"

/-- `_replace_group`: delete the workspace group only when the display-name
lookup still finds it (otherwise log and continue), then unconditionally
reflect the account group to the workspace and copy entitlements and roles
from the backup group onto the account group. -/
def replace_group (st : GatewayState) (migration_info : MigrationGroupInfo) :
    GatewayState × List GwCall :=
  let ws_group := migration_info.workspace
  let acc_group := migration_info.account
  let backup_group := migration_info.backup
  let (st1, delCalls) :=
    match getGroup st ws_group.displayName GroupLevel.WORKSPACE with
    | some _ => (deleteWsGroup st ws_group.id, [GwCall.delete ws_group.id])
    | none => (st, [])
  (st1, delCalls ++
    (GwCall.reflect acc_group.id :: apply_roles_and_entitlements backup_group acc_group))

/-- The linearized fan-out of `replace_workspace_groups_with_account_groups`
over the registry records. -/
def runReplaceAll : GatewayState → List MigrationGroupInfo → GatewayState × List GwCall
  | st, [] => (st, [])
  | st, mi :: rest =>
      let (st1, c1) := replace_group st mi
      let (st2, c2) := runReplaceAll st1 rest
      (st2, c1 ++ c2)

/-- `replace_workspace_groups_with_account_groups`: access the registry
through the asserting property, then replace every record's group. -/
def replace_workspace_groups_with_account_groups (mgr : GroupManager) (st : GatewayState) :
    RunOutcome :=
  match migration_groups_provider mgr with
  | Except.error e => { mgr := mgr, gw := st, calls := [], result := Except.error e }
  | Except.ok p =>
      { mgr := mgr, gw := (runReplaceAll st p.groups).1
        calls := (runReplaceAll st p.groups).2, result := Except.ok () }

/-- One attempted backup deletion during cleanup: the target id and whether
the gateway call raised (a raising call is caught and logged, never
propagated). -/
structure DeleteAttempt where
  groupId : String
  failed : Bool
deriving DecidableEq

/-- The cleanup loop of `delete_backup_groups`: every record's backup deletion
is attempted in order inside try/except, so a failing deletion is recorded
and iteration continues. `deleteFails` models which gateway deletions raise. -/
def deleteBackupLoop (deleteFails : String → Bool) :
    List MigrationGroupInfo → List DeleteAttempt
  | [] => []
  | mi :: rest =>
      { groupId := mi.backup.id, failed := deleteFails mi.backup.id } ::
        deleteBackupLoop deleteFails rest

/-- `delete_backup_groups`: access the registry through the asserting
property, then best-effort delete every backup group; the call itself only
raises when the registry precondition fails. -/
def delete_backup_groups (mgr : GroupManager) (deleteFails : String → Bool) :
    Except String (List DeleteAttempt) :=
  match migration_groups_provider mgr with
  | Except.error e => Except.error e
  | Except.ok p => Except.ok (deleteBackupLoop deleteFails p.groups)

/-- Uniqueness of a registry record list by workspace group display name. -/
def uniqueByWorkspaceName (l : List MigrationGroupInfo) : Prop :=
  l.Pairwise (fun a b => a.workspace.displayName ≠ b.workspace.displayName)

instance uniqueByWorkspaceName.dec (l : List MigrationGroupInfo) :
    Decidable (uniqueByWorkspaceName l) :=
  List.instDecidablePairwise l

/- ------------------------------------------------------------------ -/
/- Helper lemmas                                                      -/
/- ------------------------------------------------------------------ -/

lemma getGroup_some_displayName {st : GatewayState} {n : String} {lvl : GroupLevel} {g : Group}
    (h : getGroup st n lvl = some g) : g.displayName = n := by
  rw [getGroup] at h
  have hm : g ∈ (groupsAtLevel st lvl).filter (fun x => x.displayName == n) :=
    List.mem_of_mem_head? (by simp [h])
  have := (List.mem_filter.mp hm).2
  simpa using this

lemma getGroup_ws_none_iff {st : GatewayState} {n : String} :
    getGroup st n GroupLevel.WORKSPACE = none ↔ ∀ g ∈ st.wsGroups, g.displayName ≠ n := by
  rw [getGroup]
  simp [groupsAtLevel, List.head?_eq_none_iff, List.filter_eq_nil_iff]

lemma migration_groups_provider_ok {mgr : GroupManager}
    (hne : mgr.migration_groups_state.groups ≠ []) :
    migration_groups_provider mgr = Except.ok mgr.migration_groups_state := by
  rw [migration_groups_provider, if_pos]
  exact List.length_pos.mpr hne

/-- C1: whenever the explicitly selected candidate list contains a
system-group name, prepare_groups_in_environment aborts with the assertion
message of the first offending name, the gateway state is untouched, no
mutating gateway call (create, delete, patch or reflect) is issued, and the
registry is unchanged. -/
theorem C1_system_group_selection_aborts_without_mutation
    (mgr : GroupManager) (st : GatewayState) (g : String)
    (hg : g ∈ mgr.config.selected) (hsys : g ∈ SYSTEM_GROUPS) :
    ∃ gBad, gBad ∈ mgr.config.selected ∧ gBad ∈ SYSTEM_GROUPS ∧
      prepare_groups_in_environment mgr st =
        { mgr := mgr, gw := st, calls := []
          result := Except.error ("Cannot migrate system group " ++ gBad) } := by
  have hne : mgr.config.selected ≠ [] := by
    intro h
    rw [h] at hg
    exact (List.not_mem_nil g) hg
  have hfind : (mgr.config.selected.find? (fun x => SYSTEM_GROUPS.contains x)).isSome := by
    rw [List.find?_isSome]
    exact ⟨g, hg, by simp [hsys]⟩
  obtain ⟨gBad, hfe⟩ := Option.isSome_iff_exists.mp hfind
  refine ⟨gBad, List.mem_of_find?_eq_some hfe, ?_, ?_⟩
  · have := List.find?_some hfe
    simpa using this
  · rw [prepare_groups_in_environment, if_pos hne, hfe]

theorem C1_witness :
    "users" ∈ (["users"] : List String) ∧ "users" ∈ SYSTEM_GROUPS ∧
    ∃ gBad, gBad ∈ (["users"] : List String) ∧ gBad ∈ SYSTEM_GROUPS ∧
      prepare_groups_in_environment ⟨⟨["users"], "db-temp-"⟩, ⟨[]⟩⟩ ⟨[], [], 0⟩ =
        { mgr := ⟨⟨["users"], "db-temp-"⟩, ⟨[]⟩⟩, gw := ⟨[], [], 0⟩, calls := []
          result := Except.error ("Cannot migrate system group " ++ gBad) } :=
  ⟨by decide, by decide,
    C1_system_group_selection_aborts_without_mutation
      ⟨⟨["users"], "db-temp-"⟩, ⟨[]⟩⟩ ⟨[], [], 0⟩ "users" (by decide) (by decide)⟩

/-- C2: _apply_roles_and_entitlements issues exactly one PATCH request whose
body carries two copies of the PatchOp URN and exactly two operations,
entitlements first then roles; a category with source values becomes an add
operation over the wrapped values, a category without values becomes the
empty object, so the Operations list always has length two. -/
theorem C2_patch_request_shape (source destination : Group) :
    apply_roles_and_entitlements source destination =
      [GwCall.patch destination.id (mkPatchRequest source)] ∧
    (mkPatchRequest source).schemas = [op_schema, op_schema] ∧
    (mkPatchRequest source).operations.length = 2 ∧
    (source.entitlements ≠ [] →
      (mkPatchRequest source).operations[0]? =
        some (ScimOp.addOp "entitlements" (source.entitlements.map ScimValue.mk))) ∧
    (source.entitlements = [] →
      (mkPatchRequest source).operations[0]? = some ScimOp.emptyOp) ∧
    (source.roles ≠ [] →
      (mkPatchRequest source).operations[1]? =
        some (ScimOp.addOp "roles" (source.roles.map ScimValue.mk))) ∧
    (source.roles = [] →
      (mkPatchRequest source).operations[1]? = some ScimOp.emptyOp) := by
  refine ⟨rfl, rfl, rfl, ?_, ?_, ?_, ?_⟩ <;> intro h <;> simp [mkPatchRequest, h]

theorem C2_witness :
    (["allow-cluster-create"] : List String) ≠ [] ∧ (([] : List String) = []) ∧
    (mkPatchRequest ⟨"s1", "grp", none, "WorkspaceGroup", ["allow-cluster-create"], []⟩).operations[0]? =
      some (ScimOp.addOp "entitlements" [⟨"allow-cluster-create"⟩]) ∧
    (mkPatchRequest ⟨"s1", "grp", none, "WorkspaceGroup", ["allow-cluster-create"], []⟩).operations[1]? =
      some ScimOp.emptyOp := by
  have h := C2_patch_request_shape ⟨"s1", "grp", none, "WorkspaceGroup", ["allow-cluster-create"], []⟩
    ⟨"d1", "grp", none, "Group", [], []⟩
  exact ⟨by decide, rfl, h.2.2.2.1 (by decide), h.2.2.2.2.2.2 rfl⟩

/-- C6: the migration_groups_provider property fails closed on an empty
registry and returns the registry unchanged otherwise; consequently both
replace_workspace_groups_with_account_groups and delete_backup_groups raise
the precondition violation when the registry is empty. -/
theorem C6_provider_precondition (mgr : GroupManager) (st : GatewayState)
    (deleteFails : String → Bool) :
    (migration_groups_provider mgr =
      if mgr.migration_groups_state.groups = [] then
        Except.error "Migration groups were not loaded or initialized"
      else Except.ok mgr.migration_groups_state) ∧
    (mgr.migration_groups_state.groups = [] →
      (replace_workspace_groups_with_account_groups mgr st).result =
          Except.error "Migration groups were not loaded or initialized" ∧
        delete_backup_groups mgr deleteFails =
          Except.error "Migration groups were not loaded or initialized") := by
  constructor
  · rw [migration_groups_provider]
    rcases h : mgr.migration_groups_state.groups with _ | ⟨a, l⟩ <;> simp [h]
  · intro h
    have hp : migration_groups_provider mgr =
        Except.error "Migration groups were not loaded or initialized" := by
      rw [migration_groups_provider, h]
      simp
    constructor
    · rw [replace_workspace_groups_with_account_groups, hp]
    · rw [delete_backup_groups, hp]

theorem C6_witness :
    ((⟨⟨[], "db-temp-"⟩, ⟨[]⟩⟩ : GroupManager).migration_groups_state.groups = []) ∧
    (replace_workspace_groups_with_account_groups ⟨⟨[], "db-temp-"⟩, ⟨[]⟩⟩ ⟨[], [], 0⟩).result =
        Except.error "Migration groups were not loaded or initialized" ∧
      delete_backup_groups ⟨⟨[], "db-temp-"⟩, ⟨[]⟩⟩ (fun _ => false) =
        Except.error "Migration groups were not loaded or initialized" :=
  ⟨rfl, (C6_provider_precondition ⟨⟨[], "db-temp-"⟩, ⟨[]⟩⟩ ⟨[], [], 0⟩ (fun _ => false)).2 rfl⟩

/-- C7: on a non-empty registry, delete_backup_groups attempts the backup
deletion of every record in order, records each individual failure instead of
propagating it, and returns normally. -/
theorem C7_cleanup_best_effort (mgr : GroupManager) (deleteFails : String → Bool)
    (hne : mgr.migration_groups_state.groups ≠ []) :
    delete_backup_groups mgr deleteFails =
      Except.ok (mgr.migration_groups_state.groups.map
        (fun mi => { groupId := mi.backup.id, failed := deleteFails mi.backup.id })) := by
  rw [delete_backup_groups, migration_groups_provider_ok hne]
  have hloop : ∀ l : List MigrationGroupInfo,
      deleteBackupLoop deleteFails l =
        l.map (fun mi => { groupId := mi.backup.id, failed := deleteFails mi.backup.id }) := by
    intro l
    induction l with
    | nil => rfl
    | cons a t ih => simp [deleteBackupLoop, ih]
  show Except.ok (deleteBackupLoop deleteFails mgr.migration_groups_state.groups) = _
  rw [hloop]

theorem C7_witness :
    ((⟨⟨[], "db-temp-"⟩,
        ⟨[⟨⟨"w1", "g1", none, "WorkspaceGroup", [], []⟩, ⟨"b1", "db-temp-g1", none, "WorkspaceGroup", [], []⟩, ⟨"a1", "g1", none, "Group", [], []⟩⟩,
          ⟨⟨"w2", "g2", none, "WorkspaceGroup", [], []⟩, ⟨"b2", "db-temp-g2", none, "WorkspaceGroup", [], []⟩, ⟨"a2", "g2", none, "Group", [], []⟩⟩,
          ⟨⟨"w3", "g3", none, "WorkspaceGroup", [], []⟩, ⟨"b3", "db-temp-g3", none, "WorkspaceGroup", [], []⟩, ⟨"a3", "g3", none, "Group", [], []⟩⟩]⟩⟩ :
        GroupManager).migration_groups_state.groups ≠ []) ∧
    delete_backup_groups
      ⟨⟨[], "db-temp-"⟩,
        ⟨[⟨⟨"w1", "g1", none, "WorkspaceGroup", [], []⟩, ⟨"b1", "db-temp-g1", none, "WorkspaceGroup", [], []⟩, ⟨"a1", "g1", none, "Group", [], []⟩⟩,
          ⟨⟨"w2", "g2", none, "WorkspaceGroup", [], []⟩, ⟨"b2", "db-temp-g2", none, "WorkspaceGroup", [], []⟩, ⟨"a2", "g2", none, "Group", [], []⟩⟩,
          ⟨⟨"w3", "g3", none, "WorkspaceGroup", [], []⟩, ⟨"b3", "db-temp-g3", none, "WorkspaceGroup", [], []⟩, ⟨"a3", "g3", none, "Group", [], []⟩⟩]⟩⟩
      (fun s => s == "b2") =
      Except.ok [⟨"b1", false⟩, ⟨"b2", true⟩, ⟨"b3", false⟩] :=
  ⟨by decide,
    C7_cleanup_best_effort
      ⟨⟨[], "db-temp-"⟩,
        ⟨[⟨⟨"w1", "g1", none, "WorkspaceGroup", [], []⟩, ⟨"b1", "db-temp-g1", none, "WorkspaceGroup", [], []⟩, ⟨"a1", "g1", none, "Group", [], []⟩⟩,
          ⟨⟨"w2", "g2", none, "WorkspaceGroup", [], []⟩, ⟨"b2", "db-temp-g2", none, "WorkspaceGroup", [], []⟩, ⟨"a2", "g2", none, "Group", [], []⟩⟩,
          ⟨⟨"w3", "g3", none, "WorkspaceGroup", [], []⟩, ⟨"b3", "db-temp-g3", none, "WorkspaceGroup", [], []⟩, ⟨"a3", "g3", none, "Group", [], []⟩⟩]⟩⟩
      (fun s => s == "b2") (by decide)⟩

/-- C8: every name returned by auto-discovery belongs to a listed
workspace-scoped group whose resource type is WorkspaceGroup, and no returned
name is a system-group denylist name. -/
theorem C8_eligible_groups_workspace_local (st : GatewayState) (name : String)
    (h : name ∈ find_eligible_groups st) :
    (∃ g ∈ st.wsGroups, g.displayName = name ∧ g.resourceType = "WorkspaceGroup") ∧
    name ∉ SYSTEM_GROUPS := by
  rw [find_eligible_groups] at h
  simp only [List.mem_map, List.mem_filter] at h
  obtain ⟨g, ⟨⟨hg, hsys⟩, hres⟩, hname⟩ := h
  constructor
  · exact ⟨g, hg, hname, by simpa using hres⟩
  · intro hmem
    have hall := List.all_eq_true.mp hsys name hmem
    simp [hname] at hall

theorem C8_witness :
    "eng" ∈ find_eligible_groups ⟨[⟨"1", "eng", none, "WorkspaceGroup", [], []⟩], [], 0⟩ ∧
    ((∃ g ∈ (⟨[⟨"1", "eng", none, "WorkspaceGroup", [], []⟩], [], 0⟩ : GatewayState).wsGroups,
        g.displayName = "eng" ∧ g.resourceType = "WorkspaceGroup") ∧
      "eng" ∉ SYSTEM_GROUPS) :=
  ⟨by decide,
    C8_eligible_groups_workspace_local ⟨[⟨"1", "eng", none, "WorkspaceGroup", [], []⟩], [], 0⟩
      "eng" (by decide)⟩

lemma gocb_absent (backupGroupPfx : String) (st : GatewayState) (name : String) (src : Group)
    (habs : getGroup st (backupGroupPfx ++ name) GroupLevel.WORKSPACE = none) :
    get_or_create_backup_group backupGroupPfx st name src =
      ({ st with
          wsGroups := st.wsGroups ++
            [⟨toString st.nextId, backupGroupPfx ++ name, none, src.resourceType,
              src.entitlements, src.roles⟩]
          nextId := st.nextId + 1 },
        [GwCall.create (backupGroupPfx ++ name) src.resourceType src.entitlements src.roles,
          GwCall.patch (toString st.nextId) (mkPatchRequest src)],
        ⟨toString st.nextId, backupGroupPfx ++ name, none, src.resourceType,
          src.entitlements, src.roles⟩) := by
  simp [get_or_create_backup_group, habs, createGroup, get_clean_group_info,
    apply_roles_and_entitlements]

lemma gocb_present (backupGroupPfx : String) (st : GatewayState) (name : String) (src : Group)
    (bg : Group)
    (hsome : getGroup st (backupGroupPfx ++ name) GroupLevel.WORKSPACE = some bg) :
    get_or_create_backup_group backupGroupPfx st name src =
      (st, apply_roles_and_entitlements src bg, bg) := by
  simp [get_or_create_backup_group, hsome]

/-- C3: _replace_group issues the delete call only when the workspace group
still resolves by display name (leaving the state untouched otherwise), and
in either case follows with the reflect call and the entitlement/role copy
whose source is the backup group; and on a non-empty registry the cutover
phase as a whole returns normally. -/
theorem C3_replace_group_tolerates_missing_workspace_group (st : GatewayState)
    (mi : MigrationGroupInfo) (mgr : GroupManager) :
    ((replace_group st mi).2 =
      (if (getGroup st mi.workspace.displayName GroupLevel.WORKSPACE).isSome
        then [GwCall.delete mi.workspace.id] else []) ++
      (GwCall.reflect mi.account.id ::
        apply_roles_and_entitlements mi.backup mi.account)) ∧
    (getGroup st mi.workspace.displayName GroupLevel.WORKSPACE = none →
      (replace_group st mi).1 = st) ∧
    (mgr.migration_groups_state.groups ≠ [] →
      (replace_workspace_groups_with_account_groups mgr st).result = Except.ok ()) := by
  refine ⟨?_, ?_, ?_⟩
  · rcases h : getGroup st mi.workspace.displayName GroupLevel.WORKSPACE with _ | g <;>
      simp [replace_group, h]
  · intro h
    simp [replace_group, h]
  · intro hne
    rw [replace_workspace_groups_with_account_groups, migration_groups_provider_ok hne]

theorem C3_witness :
    getGroup ⟨[], [], 0⟩ "g" GroupLevel.WORKSPACE = none ∧
    (replace_group ⟨[], [], 0⟩
        ⟨⟨"w1", "g", none, "WorkspaceGroup", ["e"], []⟩,
          ⟨"b1", "db-temp-g", none, "WorkspaceGroup", ["e"], []⟩,
          ⟨"a1", "g", none, "Group", [], []⟩⟩).1 = ⟨[], [], 0⟩ ∧
    (replace_workspace_groups_with_account_groups
        ⟨⟨[], "db-temp-"⟩,
          ⟨[⟨⟨"w1", "g", none, "WorkspaceGroup", ["e"], []⟩,
            ⟨"b1", "db-temp-g", none, "WorkspaceGroup", ["e"], []⟩,
            ⟨"a1", "g", none, "Group", [], []⟩⟩]⟩⟩ ⟨[], [], 0⟩).result = Except.ok () := by
  have h := C3_replace_group_tolerates_missing_workspace_group ⟨[], [], 0⟩
    ⟨⟨"w1", "g", none, "WorkspaceGroup", ["e"], []⟩,
      ⟨"b1", "db-temp-g", none, "WorkspaceGroup", ["e"], []⟩,
      ⟨"a1", "g", none, "Group", [], []⟩⟩
    ⟨⟨[], "db-temp-"⟩,
      ⟨[⟨⟨"w1", "g", none, "WorkspaceGroup", ["e"], []⟩,
        ⟨"b1", "db-temp-g", none, "WorkspaceGroup", ["e"], []⟩,
        ⟨"a1", "g", none, "Group", [], []⟩⟩]⟩⟩
  exact ⟨rfl, h.2.1 rfl, h.2.2 (by decide)⟩

/-- C4: when no backup group exists yet, _get_or_create_backup_group creates
one carrying the prefixed display name, a fresh gateway id, no externalId and
the source's remaining attributes, then applies the source's entitlements and
roles; running it again on the resulting state finds the backup, creates
nothing, reuses the same group and only re-applies entitlements and roles, so
a second phase-1 run creates no duplicate backup. -/
theorem C4_backup_group_create_then_reuse (backupGroupPfx : String) (st : GatewayState)
    (source_group_name : String) (source_group : Group)
    (habs : getGroup st (backupGroupPfx ++ source_group_name) GroupLevel.WORKSPACE = none) :
    ∃ st1 backup,
      get_or_create_backup_group backupGroupPfx st source_group_name source_group =
        (st1,
          [GwCall.create (backupGroupPfx ++ source_group_name) source_group.resourceType
              source_group.entitlements source_group.roles,
            GwCall.patch backup.id (mkPatchRequest source_group)],
          backup) ∧
      backup.displayName = backupGroupPfx ++ source_group_name ∧
      backup.entitlements = source_group.entitlements ∧
      backup.roles = source_group.roles ∧
      backup.externalId = none ∧
      backup.id = toString st.nextId ∧
      st1.wsGroups = st.wsGroups ++ [backup] ∧
      get_or_create_backup_group backupGroupPfx st1 source_group_name source_group =
        (st1, apply_roles_and_entitlements source_group backup, backup) := by
  have hfil : st.wsGroups.filter
      (fun x => x.displayName == backupGroupPfx ++ source_group_name) = [] := by
    rw [getGroup] at habs
    simp only [groupsAtLevel] at habs
    exact List.head?_eq_none_iff.mp habs
  refine ⟨{ st with
      wsGroups := st.wsGroups ++
        [⟨toString st.nextId, backupGroupPfx ++ source_group_name, none,
          source_group.resourceType, source_group.entitlements, source_group.roles⟩]
      nextId := st.nextId + 1 },
    ⟨toString st.nextId, backupGroupPfx ++ source_group_name, none,
      source_group.resourceType, source_group.entitlements, source_group.roles⟩,
    gocb_absent backupGroupPfx st source_group_name source_group habs,
    rfl, rfl, rfl, rfl, rfl, rfl, ?_⟩
  refine gocb_present backupGroupPfx _ source_group_name source_group _ ?_
  rw [getGroup]
  simp [groupsAtLevel, List.filter_append, hfil]

theorem C4_witness :
    getGroup ⟨[], [], 7⟩ ("db-temp-" ++ "eng") GroupLevel.WORKSPACE = none ∧
    ∃ st1 backup,
      get_or_create_backup_group "db-temp-" ⟨[], [], 7⟩ "eng"
          ⟨"w1", "eng", none, "WorkspaceGroup", ["allow-cluster-create"], ["role-a"]⟩ =
        (st1,
          [GwCall.create ("db-temp-" ++ "eng") "WorkspaceGroup"
              ["allow-cluster-create"] ["role-a"],
            GwCall.patch backup.id
              (mkPatchRequest
                ⟨"w1", "eng", none, "WorkspaceGroup", ["allow-cluster-create"], ["role-a"]⟩)],
          backup) ∧
      backup.displayName = "db-temp-" ++ "eng" ∧
      backup.entitlements = ["allow-cluster-create"] ∧
      backup.roles = ["role-a"] ∧
      backup.externalId = none ∧
      backup.id = toString (7 : Nat) ∧
      st1.wsGroups = ([] : List Group) ++ [backup] ∧
      get_or_create_backup_group "db-temp-" st1 "eng"
          ⟨"w1", "eng", none, "WorkspaceGroup", ["allow-cluster-create"], ["role-a"]⟩ =
        (st1,
          apply_roles_and_entitlements
            ⟨"w1", "eng", none, "WorkspaceGroup", ["allow-cluster-create"], ["role-a"]⟩ backup,
          backup) :=
  ⟨rfl, C4_backup_group_create_then_reuse "db-temp-" ⟨[], [], 7⟩ "eng"
    ⟨"w1", "eng", none, "WorkspaceGroup", ["allow-cluster-create"], ["role-a"]⟩ rfl⟩

lemma getGroupInfoStep_error_of_missing {backupGroupPfx : String} {st : GatewayState}
    {name : String}
    (h : getGroup st name GroupLevel.WORKSPACE = none ∨
      getGroup st name GroupLevel.ACCOUNT = none) :
    ∃ e, getGroupInfoStep backupGroupPfx st name = Except.error e := by
  rcases h with h | h
  · refine ⟨"Group " ++ name ++ " not found on the workspace level", ?_⟩
    simp only [getGroupInfoStep, h]
  · rcases hw : getGroup st name GroupLevel.WORKSPACE with _ | wg
    · refine ⟨"Group " ++ name ++ " not found on the workspace level", ?_⟩
      simp only [getGroupInfoStep, hw]
    · refine ⟨"Group " ++ name ++ " not found on the account level", ?_⟩
      simp only [getGroupInfoStep, hw, h]

lemma getGroupInfoStep_ok_state {backupGroupPfx : String} {st : GatewayState} {n : String}
    {st1 : GatewayState} {c : List GwCall} {info : MigrationGroupInfo}
    (h : getGroupInfoStep backupGroupPfx st n = Except.ok (st1, c, info)) :
    st1.accGroups = st.accGroups ∧
    (∀ g ∈ st1.wsGroups, g ∈ st.wsGroups ∨ g.displayName = backupGroupPfx ++ n) ∧
    info.workspace.displayName = n := by
  rcases hw : getGroup st n GroupLevel.WORKSPACE with _ | wg
  · simp [getGroupInfoStep, hw] at h
  rcases ha : getGroup st n GroupLevel.ACCOUNT with _ | ag
  · simp [getGroupInfoStep, hw, ha] at h
  rcases hbg : getGroup st (backupGroupPfx ++ n) GroupLevel.WORKSPACE with _ | bg0
  · rw [getGroupInfoStep] at h
    rw [hw, ha] at h
    simp only [gocb_absent backupGroupPfx st n wg hbg] at h
    simp only [Except.ok.injEq, Prod.mk.injEq] at h
    obtain ⟨h1, h2, h3⟩ := h
    subst h1
    refine ⟨rfl, ?_, ?_⟩
    · intro g hg
      rcases List.mem_append.mp hg with hg' | hg'
      · exact Or.inl hg'
      · right
        have : g = ⟨toString st.nextId, backupGroupPfx ++ n, none, wg.resourceType,
            wg.entitlements, wg.roles⟩ := by simpa using hg'
        rw [this]
    · rw [← h3]
      exact getGroup_some_displayName hw
  · rw [getGroupInfoStep] at h
    rw [hw, ha] at h
    simp only [gocb_present backupGroupPfx st n wg bg0 hbg] at h
    simp only [Except.ok.injEq, Prod.mk.injEq] at h
    obtain ⟨h1, h2, h3⟩ := h
    subst h1
    refine ⟨rfl, fun g hg => Or.inl hg, ?_⟩
    rw [← h3]
    exact getGroup_some_displayName hw

lemma setMigrationGroupsAux_error_of_missing (backupGroupPfx : String) (name : String) :
    ∀ (names : List String) (st : GatewayState), name ∈ names →
      (getGroup st name GroupLevel.ACCOUNT = none ∨
        (getGroup st name GroupLevel.WORKSPACE = none ∧
          ∀ n ∈ names, backupGroupPfx ++ n ≠ name)) →
      ∃ e, (setMigrationGroupsAux backupGroupPfx st names).2.2 = Except.error e := by
  intro names
  induction names with
  | nil =>
    intro st hmem _
    exact absurd hmem (List.not_mem_nil _)
  | cons hd tl ih =>
    intro st hmem hcond
    rcases hstep : getGroupInfoStep backupGroupPfx st hd with e | ⟨st1, c1, info⟩
    · refine ⟨e, ?_⟩
      simp only [setMigrationGroupsAux, hstep]
    · rcases List.mem_cons.mp hmem with rfl | hmem'
      · obtain ⟨e', he'⟩ := @getGroupInfoStep_error_of_missing backupGroupPfx st name
          (by rcases hcond with h | ⟨h, _⟩; exacts [Or.inr h, Or.inl h])
        rw [hstep] at he'
        simp at he'
      · obtain ⟨hacc, hws, -⟩ := getGroupInfoStep_ok_state hstep
        have hcond1 : getGroup st1 name GroupLevel.ACCOUNT = none ∨
            (getGroup st1 name GroupLevel.WORKSPACE = none ∧
              ∀ n ∈ tl, backupGroupPfx ++ n ≠ name) := by
          rcases hcond with h | ⟨h, hall⟩
          · left
            rw [getGroup] at h ⊢
            simp only [groupsAtLevel] at h ⊢
            rw [hacc]
            exact h
          · right
            refine ⟨?_, fun n hn => hall n (List.mem_cons_of_mem _ hn)⟩
            rw [getGroup_ws_none_iff] at h ⊢
            intro g hg
            rcases hws g hg with hg' | hg'
            · exact h g hg'
            · rw [hg']
              exact hall hd (List.mem_cons_self _ _)
        obtain ⟨e, he⟩ := ih st1 hmem' hcond1
        refine ⟨e, ?_⟩
        rcases haux : setMigrationGroupsAux backupGroupPfx st1 tl with ⟨st2, c2, r⟩
        rw [haux] at he
        change r = Except.error e at he
        simp only [setMigrationGroupsAux, hstep, haux, he]

/-- C5: when a candidate name's workspace-scoped lookup or account-scoped
lookup comes back absent during discovery, _set_migration_groups fails the
whole run with an error and leaves the registry exactly as it was (no record
is added for the name).  The workspace-side condition carries the proviso
that no backup name produced during the same pass collides with the missing
name, which pins the lookup result at processing time. -/
theorem C5_missing_group_fails_run (mgr : GroupManager) (st : GatewayState)
    (groups_names : List String) (name : String)
    (hmem : name ∈ groups_names)
    (habs : getGroup st name GroupLevel.ACCOUNT = none ∨
      (getGroup st name GroupLevel.WORKSPACE = none ∧
        ∀ n ∈ groups_names, mgr.config.backupGroupPfx ++ n ≠ name)) :
    (∃ e, (set_migration_groups mgr st groups_names).result = Except.error e) ∧
    (set_migration_groups mgr st groups_names).mgr = mgr := by
  obtain ⟨e, he⟩ := setMigrationGroupsAux_error_of_missing mgr.config.backupGroupPfx name
    groups_names st hmem habs
  rcases haux : setMigrationGroupsAux mgr.config.backupGroupPfx st groups_names with
    ⟨st1, calls, r⟩
  rw [haux] at he
  change r = Except.error e at he
  constructor
  · exact ⟨e, by simp only [set_migration_groups, haux, he]⟩
  · simp only [set_migration_groups, haux, he]

theorem C5_witness :
    "a" ∈ (["a"] : List String) ∧
    getGroup ⟨[], [], 0⟩ "a" GroupLevel.ACCOUNT = none ∧
    ((∃ e, (set_migration_groups ⟨⟨[], "db-temp-"⟩, ⟨[]⟩⟩ ⟨[], [], 0⟩ ["a"]).result =
        Except.error e) ∧
      (set_migration_groups ⟨⟨[], "db-temp-"⟩, ⟨[]⟩⟩ ⟨[], [], 0⟩ ["a"]).mgr =
        ⟨⟨[], "db-temp-"⟩, ⟨[]⟩⟩) :=
  ⟨by decide, rfl,
    C5_missing_group_fails_run ⟨⟨[], "db-temp-"⟩, ⟨[]⟩⟩ ⟨[], [], 0⟩ ["a"] "a"
      (by decide) (Or.inl rfl)⟩

lemma setMigrationGroupsAux_ok_names (backupGroupPfx : String) :
    ∀ (names : List String) (st st1 : GatewayState) (calls : List GwCall)
      (infos : List MigrationGroupInfo),
      setMigrationGroupsAux backupGroupPfx st names = (st1, calls, Except.ok infos) →
      infos.map (fun i => i.workspace.displayName) = names := by
  intro names
  induction names with
  | nil =>
    intro st st1 calls infos h
    simp only [setMigrationGroupsAux, Prod.mk.injEq, Except.ok.injEq] at h
    rw [← h.2.2]
    rfl
  | cons hd tl ih =>
    intro st st1 calls infos h
    rcases hstep : getGroupInfoStep backupGroupPfx st hd with e | ⟨sta, ca, info⟩
    · simp only [setMigrationGroupsAux, hstep, Prod.mk.injEq] at h
      exact absurd h.2.2 (by simp)
    · rcases haux : setMigrationGroupsAux backupGroupPfx sta tl with ⟨stb, cb, r⟩
      rcases r with e | infos'
      · simp only [setMigrationGroupsAux, hstep, haux, Prod.mk.injEq] at h
        exact absurd h.2.2 (by simp)
      · simp only [setMigrationGroupsAux, hstep, haux, Prod.mk.injEq, Except.ok.injEq] at h
        obtain ⟨h1, h2, h3⟩ := h
        rw [← h3, List.map_cons, (getGroupInfoStep_ok_state hstep).2.2,
          ih sta stb cb infos' haux]

/-- C9 as stated is refuted by C9_counterexample: MigrationGroupsProvider.add
appends with no uniqueness check, so two adds of the same record give the
registry two records with the same workspace display name. -/
theorem C9_counterexample :
    ¬ uniqueByWorkspaceName
      (((({ groups := [] } : MigrationGroupsProvider).add
          ⟨⟨"1", "g", none, "WorkspaceGroup", [], []⟩,
            ⟨"2", "db-temp-g", none, "WorkspaceGroup", [], []⟩,
            ⟨"3", "g", none, "Group", [], []⟩⟩).add
          ⟨⟨"1", "g", none, "WorkspaceGroup", [], []⟩,
            ⟨"2", "db-temp-g", none, "WorkspaceGroup", [], []⟩,
            ⟨"3", "g", none, "Group", [], []⟩⟩).groups) := by
  decide

/-- C9 amended: uniqueness by workspace display name holds for every registry
that _set_migration_groups builds from a duplicate-free candidate name list;
the raw add operation gives no such guarantee. -/
theorem C9_registry_unique_after_set_migration_groups (mgr : GroupManager) (st : GatewayState)
    (groups_names : List String) (hnd : groups_names.Nodup)
    (hok : (set_migration_groups mgr st groups_names).result = Except.ok ()) :
    uniqueByWorkspaceName
      ((set_migration_groups mgr st groups_names).mgr.migration_groups_state.groups) := by
  rcases haux : setMigrationGroupsAux mgr.config.backupGroupPfx st groups_names with
    ⟨st1, calls, r⟩
  rcases r with e | infos
  · simp only [set_migration_groups, haux] at hok
    simp at hok
  · have hnames := setMigrationGroupsAux_ok_names mgr.config.backupGroupPfx groups_names
      st st1 calls infos haux
    simp only [set_migration_groups, haux]
    rw [uniqueByWorkspaceName]
    have hmapnd : (infos.map (fun i => i.workspace.displayName)).Nodup := by
      rw [hnames]
      exact hnd
    exact List.pairwise_map.mp hmapnd

theorem C9_witness :
    (["a"] : List String).Nodup ∧
    (set_migration_groups ⟨⟨[], "db-temp-"⟩, ⟨[]⟩⟩
        ⟨[⟨"w1", "a", none, "WorkspaceGroup", [], []⟩],
          [⟨"a1", "a", none, "Group", [], []⟩], 0⟩ ["a"]).result = Except.ok () ∧
    uniqueByWorkspaceName
      ((set_migration_groups ⟨⟨[], "db-temp-"⟩, ⟨[]⟩⟩
          ⟨[⟨"w1", "a", none, "WorkspaceGroup", [], []⟩],
            [⟨"a1", "a", none, "Group", [], []⟩], 0⟩ ["a"]).mgr.migration_groups_state.groups) :=
  ⟨by decide, rfl,
    C9_registry_unique_after_set_migration_groups ⟨⟨[], "db-temp-"⟩, ⟨[]⟩⟩
      ⟨[⟨"w1", "a", none, "WorkspaceGroup", [], []⟩],
        [⟨"a1", "a", none, "Group", [], []⟩], 0⟩ ["a"] (by decide) rfl⟩

/-- C10: the system-group rejection is a case-sensitive exact membership
test: when no selected name is literally in the denylist, even though some
selected name matches a denylist entry up to letter case, the assertion
passes and the run proceeds to _set_migration_groups on the selection. -/
theorem C10_system_group_check_case_sensitive (mgr : GroupManager) (st : GatewayState)
    (hnone : ∀ g ∈ mgr.config.selected, g ∉ SYSTEM_GROUPS)
    (hcase : ∃ g ∈ mgr.config.selected,
      g.data.map Char.toLower ∈ SYSTEM_GROUPS.map (fun s => s.data.map Char.toLower)) :
    prepare_groups_in_environment mgr st = set_migration_groups mgr st mgr.config.selected := by
  obtain ⟨g, hg, _⟩ := hcase
  have hne : mgr.config.selected ≠ [] := by
    intro h
    rw [h] at hg
    exact (List.not_mem_nil g) hg
  have hfind : mgr.config.selected.find? (fun x => SYSTEM_GROUPS.contains x) = none := by
    rw [List.find?_eq_none]
    intro x hx
    simpa using hnone x hx
  rw [prepare_groups_in_environment, if_pos hne, hfind]

theorem C10_witness :
    (∀ g ∈ (["Admins"] : List String), g ∉ SYSTEM_GROUPS) ∧
    "Admins".data.map Char.toLower ∈ SYSTEM_GROUPS.map (fun s => s.data.map Char.toLower) ∧
    prepare_groups_in_environment ⟨⟨["Admins"], "db-temp-"⟩, ⟨[]⟩⟩ ⟨[], [], 0⟩ =
      set_migration_groups ⟨⟨["Admins"], "db-temp-"⟩, ⟨[]⟩⟩ ⟨[], [], 0⟩ ["Admins"] :=
  ⟨by decide, by decide,
    C10_system_group_check_case_sensitive ⟨⟨["Admins"], "db-temp-"⟩, ⟨[]⟩⟩ ⟨[], [], 0⟩
      (by decide) ⟨"Admins", by decide, by decide⟩⟩

end UcMigration
